import Mathlib

/-
Verification of the F1 telemetry / portfolio utilities.

Shallow embedding of `src/utils/f1_functions.py` and `src/utils/pdf_utils.py`.
Tabular pandas records become Lean structures; DataFrame filtering becomes
`List.filter`; dictionaries keyed by driver code become association lists
read through `List.lookup`; caught exceptions become `Except`/`Option`
values threaded explicitly.  Floating-point telemetry readings are modelled
by exact integers (the claims under study are order- and structure-claims,
not rounding claims); the quantities the code obtains by division (the lap
statistics means and the DRS percentage) live in `ℚ`.
-/

namespace Portfolio

/-! ## Data model -/

/-- One lap record as exposed by `session.laps.pick_drivers`, restricted to
the columns `process_driver_data` reads: `LapNumber`, `IsAccurate`,
`LapTime`, `PitOutTime`, `PitInTime`.  The three timestamp columns are
`Option` values: `none` plays the role of pandas `NaT`. -/
structure Lap where
  lapNumber : ℕ
  isAccurate : Bool
  lapTime : Option ℤ
  pitOutTime : Option ℤ
  pitInTime : Option ℤ
deriving DecidableEq

/-- One raw telemetry row as returned by `lap.get_telemetry()`, restricted
to the columns the code keeps. -/
structure RawSample where
  x : ℤ
  y : ℤ
  speed : ℤ
  rpm : ℤ
  throttle : ℤ
  brake : ℤ
  drs : ℤ
  nGear : ℤ
deriving DecidableEq

/-- One processed telemetry row of a driver series: the raw columns plus
the derived `Distance` and the stamped `LapNumber`, `Driver`, `LapTime`. -/
structure Sample where
  distance : ℤ
  speed : ℤ
  rpm : ℤ
  throttle : ℤ
  brake : ℤ
  drs : ℤ
  nGear : ℤ
  x : ℤ
  y : ℤ
  lapNumber : ℕ
  driver : String
  lapTime : ℤ
deriving DecidableEq

/-- The FastF1 session as `process_driver_data` consumes it: per driver the
lap table (`.laps.pick_drivers`, which may raise — `Except.error`), and per
(driver, lap-number) the telemetry fetch (`lap.get_telemetry()`, which may
also raise). -/
structure Session where
  laps : String → Except String (List Lap)
  telemetry : String → ℕ → Except String (List RawSample)

/-! ## Lap filter (`process_driver_data`, the `valid_laps` mask) -/

/-- The boolean mask of `f1_functions.py` lines 106–111:
`IsAccurate == True ∧ LapTime.notna() ∧ PitOutTime.isna() ∧ PitInTime.isna()`. -/
def lapIsValid (l : Lap) : Bool :=
  l.isAccurate && l.lapTime.isSome && l.pitOutTime.isNone && l.pitInTime.isNone

/-- `valid_laps = driver_laps.loc[mask]`: row selection by a boolean mask,
i.e. `List.filter`. -/
def validLaps (laps : List Lap) : List Lap :=
  laps.filter lapIsValid

/-- C2: for every list of raw lap records of one driver, the lap filter of
`process_driver_data` keeps exactly the laps with `IsAccurate = true`, a
present lap time and no pit-in/pit-out timestamp, as a subsequence of the
input (hence in the original lap order); it is total, so nothing is raised
when zero laps qualify. -/
theorem c2_lap_filter (laps : List Lap) :
    (validLaps laps).Sublist laps ∧
    (∀ l : Lap, l ∈ validLaps laps ↔
      (l ∈ laps ∧ l.isAccurate = true ∧ l.lapTime.isSome = true ∧
        l.pitOutTime = none ∧ l.pitInTime = none)) := by
  constructor
  · exact List.filter_sublist laps
  · intro l
    simp [validLaps, lapIsValid, List.mem_filter, Option.isNone_iff_eq_none,
      and_assoc]

/-- Witness for C2 at a concrete two-lap input: lap 1 qualifies, lap 2 is
inaccurate and is dropped. -/
theorem c2_lap_filter_witness :
    (validLaps [⟨1, true, some 80, none, none⟩, ⟨2, false, some 81, none, none⟩]).Sublist
      [⟨1, true, some 80, none, none⟩, ⟨2, false, some 81, none, none⟩] ∧
    ((⟨2, false, some 81, none, none⟩ : Lap) ∈
        validLaps [⟨1, true, some 80, none, none⟩, ⟨2, false, some 81, none, none⟩] ↔
      ((⟨2, false, some 81, none, none⟩ : Lap) ∈
          [(⟨1, true, some 80, none, none⟩ : Lap), ⟨2, false, some 81, none, none⟩] ∧
        false = true ∧ (some (81 : ℤ)).isSome = true ∧
        (none : Option ℤ) = none ∧ (none : Option ℤ) = none)) :=
  ⟨(c2_lap_filter [⟨1, true, some 80, none, none⟩, ⟨2, false, some 81, none, none⟩]).1,
   (c2_lap_filter [⟨1, true, some 80, none, none⟩, ⟨2, false, some 81, none, none⟩]).2
     ⟨2, false, some 81, none, none⟩⟩

/-! ## Telemetry aligner (`process_driver_data`) -/

/-- Helper for `dedupFirst`: drop the values already seen, keep first
occurrences of the rest. -/
def dedupFirstAux (seen : List ℕ) : List ℕ → List ℕ
  | [] => []
  | n :: ns => if n ∈ seen then dedupFirstAux seen ns else n :: dedupFirstAux (n :: seen) ns

/-- `valid_laps['LapNumber'].unique()`: the distinct values in order of
first occurrence (pandas `unique` keeps first occurrences). -/
def dedupFirst (l : List ℕ) : List ℕ :=
  dedupFirstAux [] l

theorem mem_dedupFirstAux (l : List ℕ) :
    ∀ seen n, n ∈ dedupFirstAux seen l ↔ (n ∈ l ∧ n ∉ seen) := by
  induction l with
  | nil => intro seen n; simp [dedupFirstAux]
  | cons m ms ih =>
    intro seen n
    rw [dedupFirstAux]
    by_cases hm : m ∈ seen
    · rw [if_pos hm, ih]
      constructor
      · rintro ⟨hn, hns⟩
        exact ⟨List.mem_cons_of_mem _ hn, hns⟩
      · rintro ⟨hn, hns⟩
        rcases List.mem_cons.1 hn with rfl | hn
        · exact absurd hm hns
        · exact ⟨hn, hns⟩
    · rw [if_neg hm]
      simp only [List.mem_cons, ih, List.mem_cons]
      constructor
      · rintro (rfl | ⟨hn, hns⟩)
        · exact ⟨Or.inl rfl, hm⟩
        · exact ⟨Or.inr hn, fun h => hns (Or.inr h)⟩
      · rintro ⟨rfl | hn, hns⟩
        · exact Or.inl rfl
        · by_cases hnm : n = m
          · exact Or.inl hnm
          · exact Or.inr ⟨hn, fun h => (h.elim hnm hns)⟩

theorem nodup_dedupFirstAux (l : List ℕ) :
    ∀ seen, (dedupFirstAux seen l).Nodup := by
  induction l with
  | nil => intro seen; simp [dedupFirstAux]
  | cons m ms ih =>
    intro seen
    rw [dedupFirstAux]
    by_cases hm : m ∈ seen
    · rw [if_pos hm]; exact ih seen
    · rw [if_neg hm]
      refine List.nodup_cons.2 ⟨?_, ih (m :: seen)⟩
      rw [mem_dedupFirstAux]
      rintro ⟨_, hns⟩
      exact hns (List.mem_cons_self _ _)

theorem mem_dedupFirst (l : List ℕ) (n : ℕ) : n ∈ dedupFirst l ↔ n ∈ l := by
  rw [dedupFirst, mem_dedupFirstAux]
  simp

theorem nodup_dedupFirst (l : List ℕ) : (dedupFirst l).Nodup :=
  nodup_dedupFirstAux l []

/-- Modelled from the spec: the external fastf1 `add_distance` call —
"Distance: cumulative arc-length along the driven path, derived from
successive position deltas".  The library's Euclidean step length is
represented by the taxicab length `|Δx| + |Δy|`, a nonnegative path norm
expressible over exact integers; every claim under study only uses that
each step is nonnegative.  The first sample is at distance 0. -/
def addDistanceFrom (prev : RawSample) (acc : ℤ) : List RawSample → List (ℤ × RawSample)
  | [] => []
  | r :: rs =>
      (acc + (|r.x - prev.x| + |r.y - prev.y|), r) ::
        addDistanceFrom r (acc + (|r.x - prev.x| + |r.y - prev.y|)) rs

/-- Modelled from the spec: see `addDistanceFrom`. -/
def add_distance : List RawSample → List (ℤ × RawSample)
  | [] => []
  | r :: rs => (0, r) :: addDistanceFrom r 0 rs

/-- Lines 132–135: keep the required columns and stamp `LapNumber`,
`Driver`, `LapTime` onto every row of the fetched trace. -/
def tagSamples (d : String) (n : ℕ) (lt : ℤ) (l : List (ℤ × RawSample)) : List Sample :=
  l.map (fun p =>
    { distance := p.1, speed := p.2.speed, rpm := p.2.rpm, throttle := p.2.throttle,
      brake := p.2.brake, drs := p.2.drs, nGear := p.2.nGear, x := p.2.x, y := p.2.y,
      lapNumber := n, driver := d, lapTime := lt })

/-- The per-lap `try` body, lines 121–141: fetch the telemetry of one lap;
a raised error or an empty trace skips the lap (`none`), otherwise the
trace is distance-annotated and tagged. -/
def processLap (s : Session) (d : String) (lt : ℤ) (n : ℕ) : Option (List Sample) :=
  match s.telemetry d n with
  | .error _ => none
  | .ok [] => none
  | .ok (r :: rs) => some (tagSamples d n lt (add_distance (r :: rs)))

/-- The loop over `valid_laps['LapNumber'].unique()`, lines 119–141: for
each distinct lap number take the first matching valid-lap row
(`.iloc[0]`) and process that lap, collecting the non-skipped traces. -/
def driverChunks (s : Session) (d : String) (valid : List Lap) : List (List Sample) :=
  (dedupFirst (valid.map (·.lapNumber))).filterMap (fun n =>
    match valid.find? (fun l => l.lapNumber == n) with
    | none => none
    | some lap => processLap s d (lap.lapTime.getD 0) n)

/-- The per-driver `try` body, lines 100–146: a raised per-driver error,
an empty lap table, zero valid laps, or zero fetched traces all yield no
entry (`none`); otherwise the driver's per-lap traces are concatenated in
lap order (`pd.concat`). -/
def process_driver (s : Session) (d : String) : Option (List Sample) :=
  match s.laps d with
  | .error _ => none
  | .ok laps =>
    if laps.isEmpty then none
    else
      let valid := validLaps laps
      if valid.isEmpty then none
      else
        let chunks := driverChunks s d valid
        if chunks.isEmpty then none else some chunks.flatten

/-- `process_driver_data`, lines 91–158: the per-driver mapping (a dict
keyed by driver code, read through `List.lookup`) and the combined
concatenation of every kept trace. -/
def process_driver_data (s : Session) (drivers : List String) :
    List (String × List Sample) × List Sample :=
  let dd := drivers.filterMap (fun d => (process_driver s d).map (fun t => (d, t)))
  (dd, dd.flatMap Prod.snd)

theorem mem_process_driver_data (s : Session) (drivers : List String)
    (d : String) (t : List Sample) :
    (d, t) ∈ (process_driver_data s drivers).1 ↔
      d ∈ drivers ∧ process_driver s d = some t := by
  simp only [process_driver_data, List.mem_filterMap]
  constructor
  · rintro ⟨d', hd', hmap⟩
    rcases h : process_driver s d' with _ | t'
    · rw [h] at hmap
      exact Option.noConfusion hmap
    · rw [h] at hmap
      simp only [Option.map_some', Option.some.injEq, Prod.mk.injEq] at hmap
      obtain ⟨rfl, rfl⟩ := hmap
      exact ⟨hd', h⟩
  · rintro ⟨hd, h⟩
    exact ⟨d, hd, by rw [h]; rfl⟩

/-- C3: per-driver isolation of `process_driver_data`.  The entry of a
driver in the returned mapping is a function of that driver's own data
alone: a driver whose processing fails or yields no valid telemetry is
absent from the mapping, and a driver whose processing succeeds is present
with its own trace regardless of what happens to every other driver in the
list.  The embedding is total, so no error escapes. -/
theorem c3_driver_isolation (s : Session) (drivers : List String) (d : String) :
    (process_driver s d = none →
      ∀ t : List Sample, (d, t) ∉ (process_driver_data s drivers).1) ∧
    (∀ t : List Sample, d ∈ drivers → process_driver s d = some t →
      (d, t) ∈ (process_driver_data s drivers).1) ∧
    (∀ t : List Sample, (d, t) ∈ (process_driver_data s drivers).1 →
      process_driver s d = some t) := by
  refine ⟨?_, ?_, ?_⟩
  · intro hnone t hmem
    rw [mem_process_driver_data] at hmem
    rw [hnone] at hmem
    exact Option.noConfusion hmem.2
  · intro t hd hsome
    exact (mem_process_driver_data s drivers d t).2 ⟨hd, hsome⟩
  · intro t hmem
    exact ((mem_process_driver_data s drivers d t).1 hmem).2

/-- Concrete session for the C3 scenario: "VER" has one valid lap with a
one-sample trace, "HAM" has zero laps. -/
def sessionC3 : Session :=
  ⟨fun d => if d = "VER" then .ok [⟨1, true, some 80, none, none⟩] else .ok [],
   fun d n => if d = "VER" ∧ n = 1 then .ok [⟨0, 0, 200, 10000, 100, 0, 0, 3⟩] else .ok []⟩

/-- Witness for C3: in the spec's scenario (driver list `["VER", "HAM"]`,
"HAM" with zero valid laps) the mapping contains "VER" with its non-empty
trace and nothing for "HAM". -/
theorem c3_driver_isolation_witness :
    ("VER", [(⟨0, 200, 10000, 100, 0, 0, 3, 0, 0, 1, "VER", 80⟩ : Sample)]) ∈
      (process_driver_data sessionC3 ["VER", "HAM"]).1 ∧
    ("HAM", ([] : List Sample)) ∉ (process_driver_data sessionC3 ["VER", "HAM"]).1 :=
  ⟨(c3_driver_isolation sessionC3 ["VER", "HAM"] "VER").2.1
      [⟨0, 200, 10000, 100, 0, 0, 3, 0, 0, 1, "VER", 80⟩] (by simp) (by rfl),
   (c3_driver_isolation sessionC3 ["VER", "HAM"] "HAM").1 (by rfl) []⟩

/-! ## Invariants of the produced driver series (C4) -/

theorem mem_tagSamples {d : String} {n : ℕ} {lt : ℤ} {l : List (ℤ × RawSample)}
    {smp : Sample} (h : smp ∈ tagSamples d n lt l) :
    smp.driver = d ∧ smp.lapNumber = n := by
  simp only [tagSamples, List.mem_map] at h
  obtain ⟨p, _, rfl⟩ := h
  exact ⟨rfl, rfl⟩

theorem tagSamples_map_distance (d : String) (n : ℕ) (lt : ℤ) (l : List (ℤ × RawSample)) :
    (tagSamples d n lt l).map Sample.distance = l.map Prod.fst := by
  simp [tagSamples, Function.comp]

theorem chain_addDistanceFrom (rs : List RawSample) :
    ∀ (prev : RawSample) (acc : ℤ),
      List.Chain' (· ≤ ·) (acc :: (addDistanceFrom prev acc rs).map Prod.fst) := by
  induction rs with
  | nil => intro prev acc; simp [addDistanceFrom]
  | cons r rs ih =>
    intro prev acc
    have h1 : (0 : ℤ) ≤ |r.x - prev.x| + |r.y - prev.y| :=
      add_nonneg (abs_nonneg _) (abs_nonneg _)
    rw [addDistanceFrom, List.map_cons]
    exact List.chain'_cons.2 ⟨le_add_of_nonneg_right h1, ih r _⟩

theorem chain_add_distance (l : List RawSample) :
    List.Chain' (· ≤ ·) ((add_distance l).map Prod.fst) := by
  cases l with
  | nil => simp [add_distance]
  | cons r rs =>
    rw [add_distance]
    simpa using chain_addDistanceFrom rs r 0

theorem processLap_spec {s : Session} {d : String} {lt : ℤ} {n : ℕ} {c : List Sample}
    (h : processLap s d lt n = some c) :
    (∀ smp ∈ c, smp.driver = d ∧ smp.lapNumber = n) ∧
      List.Chain' (· ≤ ·) (c.map Sample.distance) := by
  rw [processLap] at h
  rcases htel : s.telemetry d n with e | raws
  · rw [htel] at h; exact Option.noConfusion h
  · rw [htel] at h
    cases raws with
    | nil => exact Option.noConfusion h
    | cons r rs =>
      have hc : c = tagSamples d n lt (add_distance (r :: rs)) :=
        (Option.some.injEq _ _ ▸ h.symm)
      subst hc
      refine ⟨fun smp hsmp => mem_tagSamples hsmp, ?_⟩
      rw [tagSamples_map_distance]
      exact chain_add_distance (r :: rs)

theorem mem_driverChunks {s : Session} {d : String} {valid : List Lap} {c : List Sample}
    (h : c ∈ driverChunks s d valid) :
    ∃ n, n ∈ valid.map (·.lapNumber) ∧
      (∀ smp ∈ c, smp.driver = d ∧ smp.lapNumber = n) ∧
      List.Chain' (· ≤ ·) (c.map Sample.distance) := by
  rw [driverChunks] at h
  rw [List.mem_filterMap] at h
  obtain ⟨n, hn, hsome⟩ := h
  refine ⟨n, (mem_dedupFirst _ n).1 hn, ?_⟩
  rcases hfind : valid.find? (fun l => l.lapNumber == n) with _ | lap
  · rw [hfind] at hsome; exact Option.noConfusion hsome
  · rw [hfind] at hsome
    exact processLap_spec hsome

theorem mem_flatten_driverChunks {s : Session} {d : String} {valid : List Lap}
    {smp : Sample} (h : smp ∈ (driverChunks s d valid).flatten) :
    smp.driver = d ∧ ∃ lap ∈ valid, lap.lapNumber = smp.lapNumber := by
  rw [List.mem_flatten] at h
  obtain ⟨c, hc, hsmp⟩ := h
  obtain ⟨n, hnmem, htag, _⟩ := mem_driverChunks hc
  obtain ⟨hdrv, hlapn⟩ := htag smp hsmp
  rw [List.mem_map] at hnmem
  obtain ⟨lap, hlap, hlapeq⟩ := hnmem
  exact ⟨hdrv, lap, hlap, by rw [hlapeq, hlapn]⟩

/-- Key structural lemma: the per-lap chunks carry pairwise distinct lap
numbers, every chunk is tag-homogeneous and distance-monotone, so the
restriction of the concatenation to one lap number is distance-monotone. -/
theorem chain_filter_flatten (g : ℕ → Option (List Sample)) :
    ∀ ns : List ℕ, ns.Nodup →
      (∀ n c, g n = some c → ∀ smp ∈ c, smp.lapNumber = n) →
      (∀ n c, g n = some c → List.Chain' (· ≤ ·) (c.map Sample.distance)) →
      ∀ m : ℕ, List.Chain' (· ≤ ·)
        ((((ns.filterMap g).flatten).filter (fun smp => smp.lapNumber == m)).map
          Sample.distance) := by
  intro ns
  induction ns with
  | nil => intro _ _ _ m; simp
  | cons n ns ih =>
    intro hnd htag hmono m
    have hnmem : n ∉ ns := (List.nodup_cons.1 hnd).1
    have hnd' : ns.Nodup := (List.nodup_cons.1 hnd).2
    rw [List.filterMap_cons]
    rcases hg : g n with _ | c
    · exact ih hnd' htag hmono m
    · rw [List.flatten_cons, List.filter_append]
      by_cases hm : m = n
      · subst hm
        have hc : c.filter (fun smp => smp.lapNumber == m) = c := by
          rw [List.filter_eq_self]
          intro smp hsmp
          simp [htag m c hg smp hsmp]
        have hrest : ((ns.filterMap g).flatten).filter (fun smp => smp.lapNumber == m) = [] := by
          rw [List.filter_eq_nil_iff]
          intro smp hsmp
          rw [List.mem_flatten] at hsmp
          obtain ⟨c', hc', hsmp'⟩ := hsmp
          rw [List.mem_filterMap] at hc'
          obtain ⟨n', hn', hgn'⟩ := hc'
          have : smp.lapNumber = n' := htag n' c' hgn' smp hsmp'
          simp only [beq_iff_eq, this]
          rintro rfl
          exact hnmem hn'
        rw [hc, hrest, List.append_nil]
        exact hmono m c hg
      · have hc : c.filter (fun smp => smp.lapNumber == m) = [] := by
          rw [List.filter_eq_nil_iff]
          intro smp hsmp
          have : smp.lapNumber = n := htag n c hg smp hsmp
          simp only [beq_iff_eq, this]
          exact fun h => hm h.symm
        rw [hc, List.nil_append]
        exact ih hnd' htag hmono m

theorem process_driver_spec {s : Session} {d : String} {t : List Sample}
    (h : process_driver s d = some t) :
    ∃ laps, s.laps d = .ok laps ∧
      (∀ smp ∈ t, smp.driver = d) ∧
      (∀ smp ∈ t, ∃ lap ∈ validLaps laps, lap.lapNumber = smp.lapNumber) ∧
      (∀ m : ℕ, List.Chain' (· ≤ ·)
        ((t.filter (fun smp => smp.lapNumber == m)).map Sample.distance)) := by
  rcases hlaps : s.laps d with e | laps
  · rw [process_driver, hlaps] at h; exact Option.noConfusion h
  · simp only [process_driver, hlaps] at h
    by_cases h0 : laps.isEmpty
    · rw [if_pos h0] at h; exact Option.noConfusion h
    · rw [if_neg h0] at h
      by_cases h1 : (validLaps laps).isEmpty
      · rw [if_pos h1] at h; exact Option.noConfusion h
      · rw [if_neg h1] at h
        by_cases h2 : (driverChunks s d (validLaps laps)).isEmpty
        · rw [if_pos h2] at h; exact Option.noConfusion h
        · rw [if_neg h2] at h
          have ht : t = (driverChunks s d (validLaps laps)).flatten :=
            (Option.some.injEq _ _ ▸ h.symm)
          subst ht
          refine ⟨laps, rfl, ?_, ?_, ?_⟩
          · intro smp hsmp
            exact (mem_flatten_driverChunks hsmp).1
          · intro smp hsmp
            exact (mem_flatten_driverChunks hsmp).2
          · intro m
            refine chain_filter_flatten _ _ (nodup_dedupFirst _) ?_ ?_ m
            · intro n c hg smp hsmp
              rcases hfind : (validLaps laps).find? (fun l => l.lapNumber == n) with _ | lap
              · rw [hfind] at hg; exact Option.noConfusion hg
              · rw [hfind] at hg
                exact ((processLap_spec hg).1 smp hsmp).2
            · intro n c hg
              rcases hfind : (validLaps laps).find? (fun l => l.lapNumber == n) with _ | lap
              · rw [hfind] at hg; exact Option.noConfusion hg
              · rw [hfind] at hg
                exact (processLap_spec hg).2

/-- C4: invariants of every driver series produced by
`process_driver_data`: within each single lap's samples the cumulative
distance is non-decreasing in trace order, every sample carries the driver
code of the series and a lap number coming from a lap that passed the
validity filter (so excluded laps contribute no samples). -/
theorem c4_series_invariants (s : Session) (drivers : List String)
    (d : String) (t : List Sample)
    (h : (d, t) ∈ (process_driver_data s drivers).1) :
    (∀ smp ∈ t, smp.driver = d) ∧
    (∃ laps, s.laps d = .ok laps ∧
      ∀ smp ∈ t, ∃ lap ∈ validLaps laps, lap.lapNumber = smp.lapNumber) ∧
    (∀ m : ℕ, List.Chain' (· ≤ ·)
      ((t.filter (fun smp => smp.lapNumber == m)).map Sample.distance)) := by
  have hsome := ((mem_process_driver_data s drivers d t).1 h).2
  obtain ⟨laps, hlaps, hdrv, hvalid, hchain⟩ := process_driver_spec hsome
  exact ⟨hdrv, ⟨laps, hlaps, hvalid⟩, hchain⟩

/-- Concrete session for the C4 witness: one driver, one valid lap with a
two-sample trace. -/
def sessionC4 : Session :=
  ⟨fun d => if d = "NOR" then .ok [⟨3, true, some 90, none, none⟩] else .ok [],
   fun d n => if d = "NOR" ∧ n = 3 then
      .ok [⟨0, 0, 210, 9000, 90, 0, 0, 4⟩, ⟨3, 4, 220, 9500, 95, 0, 0, 5⟩]
    else .ok []⟩

/-- Witness for C4 at a concrete session. -/
theorem c4_series_invariants_witness :
    (∀ smp ∈ [(⟨0, 210, 9000, 90, 0, 0, 4, 0, 0, 3, "NOR", 90⟩ : Sample),
        ⟨7, 220, 9500, 95, 0, 0, 5, 3, 4, 3, "NOR", 90⟩], smp.driver = "NOR") ∧
    (∃ laps, sessionC4.laps "NOR" = .ok laps ∧
      ∀ smp ∈ [(⟨0, 210, 9000, 90, 0, 0, 4, 0, 0, 3, "NOR", 90⟩ : Sample),
          ⟨7, 220, 9500, 95, 0, 0, 5, 3, 4, 3, "NOR", 90⟩],
        ∃ lap ∈ validLaps laps, lap.lapNumber = smp.lapNumber) ∧
    (∀ m : ℕ, List.Chain' (· ≤ ·)
      (([(⟨0, 210, 9000, 90, 0, 0, 4, 0, 0, 3, "NOR", 90⟩ : Sample),
          ⟨7, 220, 9500, 95, 0, 0, 5, 3, 4, 3, "NOR", 90⟩].filter
            (fun smp => smp.lapNumber == m)).map Sample.distance)) :=
  c4_series_invariants sessionC4 ["NOR"]
    "NOR" [⟨0, 210, 9000, 90, 0, 0, 4, 0, 0, 3, "NOR", 90⟩,
      ⟨7, 220, 9500, 95, 0, 0, 5, 3, 4, 3, "NOR", 90⟩] (by decide)

/-! ## Nearest-position locator (`update_track_marker`) -/

/-- One plotly scatter trace, restricted to the fields the code writes:
`x`, `y`, `mode`, line/marker `color`, and the hover template.  The hover
template's only varying datum is the displayed recorded distance, so it is
modelled by that number. -/
structure PlotTrace where
  x : List ℤ
  y : List ℤ
  mode : String
  color : String
  hoverDistance : ℤ
deriving DecidableEq

/-- A plotly figure: its list of data traces. -/
structure Figure where
  data : List PlotTrace
deriving DecidableEq

/-- `first_driver_data['LapNumber'].min()` (value irrelevant on an empty
series: the subsequent filter is then empty anyway). -/
def minLapNumber : List Sample → ℕ
  | [] => 0
  | s :: rest => rest.foldl (fun m r => min m r.lapNumber) s.lapNumber

/-- `track_data = first_driver_data[first_driver_data['LapNumber'] == first_lap]`. -/
def firstLapTrace (t : List Sample) : List Sample :=
  t.filter (fun s => s.lapNumber == minLapNumber t)

/-- `series.min()` for the pandas distance series (value on an empty list
irrelevant). -/
def listMin : List ℤ → ℤ
  | [] => 0
  | v :: vs => vs.foldl min v

/-- `series.idxmin()`: the (positional) index of the first occurrence of
the minimum. -/
def idxmin (l : List ℤ) : ℕ :=
  l.findIdx (fun v => v == listMin l)

theorem foldl_min_le (vs : List ℤ) : ∀ a : ℤ, vs.foldl min a ≤ a := by
  induction vs with
  | nil => intro a; simp
  | cons v vs ih =>
    intro a
    rw [List.foldl_cons]
    exact (ih (min a v)).trans (min_le_left a v)

theorem foldl_min_le_mem (vs : List ℤ) : ∀ (a w : ℤ), w ∈ vs → vs.foldl min a ≤ w := by
  induction vs with
  | nil => intro a w hw; cases hw
  | cons v vs ih =>
    intro a w hw
    rw [List.foldl_cons]
    rcases List.mem_cons.1 hw with rfl | hw
    · exact (foldl_min_le vs (min a w)).trans (min_le_right a w)
    · exact ih (min a v) w hw

theorem foldl_min_mem (vs : List ℤ) : ∀ a : ℤ, vs.foldl min a = a ∨ vs.foldl min a ∈ vs := by
  induction vs with
  | nil => intro a; exact Or.inl rfl
  | cons v vs ih =>
    intro a
    rw [List.foldl_cons]
    rcases ih (min a v) with h | h
    · rcases min_choice a v with hm | hm
      · exact Or.inl (h.trans hm)
      · exact Or.inr (List.mem_cons.2 (Or.inl (h.trans hm)))
    · exact Or.inr (List.mem_cons.2 (Or.inr h))

theorem listMin_mem (l : List ℤ) (h : l ≠ []) : listMin l ∈ l := by
  cases l with
  | nil => exact absurd rfl h
  | cons v vs =>
    rw [listMin]
    rcases foldl_min_mem vs v with h1 | h1
    · exact List.mem_cons.2 (Or.inl h1)
    · exact List.mem_cons.2 (Or.inr h1)

theorem listMin_le (l : List ℤ) (w : ℤ) (hw : w ∈ l) : listMin l ≤ w := by
  cases l with
  | nil => cases hw
  | cons v vs =>
    rw [listMin]
    rcases List.mem_cons.1 hw with rfl | hw
    · exact foldl_min_le vs w
    · exact foldl_min_le_mem vs v w hw

/-- `idxmin` returns a valid index, its value is a (weak) minimum, and
every strictly earlier index holds a strictly larger value: the stable
(first-occurrence) minimum. -/
theorem idxmin_spec (l : List ℤ) (h : l ≠ []) :
    ∃ v : ℤ, l[idxmin l]? = some v ∧ (∀ w ∈ l, v ≤ w) ∧
      ∀ j, j < idxmin l → ∀ w : ℤ, l[j]? = some w → v < w := by
  have hmem : listMin l ∈ l := listMin_mem l h
  have hex : ∃ x ∈ l, (fun v => v == listMin l) x = true := ⟨listMin l, hmem, by simp⟩
  have hlt : idxmin l < l.length := List.findIdx_lt_length_of_exists hex
  refine ⟨l[idxmin l], List.getElem?_eq_getElem hlt, ?_, ?_⟩
  · have hv : (l[idxmin l] == listMin l) = true := List.findIdx_getElem (w := hlt)
    intro w hw
    rw [beq_iff_eq.1 hv]
    exact listMin_le l w hw
  · intro j hj w hjw
    have hv : (l[idxmin l] == listMin l) = true := List.findIdx_getElem (w := hlt)
    rw [beq_iff_eq.1 hv]
    have hjlen : j < l.length := hj.trans hlt
    have hwj : l[j] = w := by
      rw [List.getElem?_eq_getElem hjlen] at hjw
      exact Option.some.injEq _ _ ▸ hjw
    have hne : (l[j] == listMin l) = false := List.not_of_lt_findIdx hj
    have hle : listMin l ≤ w := listMin_le l w (hwj ▸ List.getElem_mem hjlen)
    rcases lt_or_eq_of_le hle with hlt2 | heq
    · exact hlt2
    · exfalso
      rw [← hwj] at heq
      rw [beq_eq_false_iff_ne] at hne
      exact hne heq.symm

/-- `update_track_marker`, lines 366–398: locate the sample of the first
selected driver's minimum-lap trace whose distance is nearest to the
query (first occurrence on ties, pandas `idxmin`), and rewrite the marker
trace `fig.data[1]` to that sample's position and recorded distance.  Any
degenerate input (no selected driver, driver not in the mapping, empty
trace, figure without a marker trace) leaves the figure untouched. -/
def update_track_marker (fig : Figure) (driver_data : List (String × List Sample))
    (selected_drivers : List String) (selected_distance : ℤ) : Figure :=
  match selected_drivers with
  | [] => fig
  | d0 :: _ =>
    match driver_data.lookup d0 with
    | none => fig
    | some series =>
      let track := firstLapTrace series
      if track.isEmpty then fig
      else
        let i := idxmin (track.map (fun s => |s.distance - selected_distance|))
        match track[i]? with
        | none => fig
        | some s =>
          match fig.data[1]? with
          | none => fig
          | some t1 =>
            ⟨fig.data.set 1 { t1 with x := [s.x], y := [s.y], hoverDistance := s.distance }⟩

/-- C1: whenever the first selected driver is in the mapping, its
minimum-lap reference trace is non-empty and the figure has a marker
trace, `update_track_marker` rewrites the marker to the position and
recorded distance of the trace sample minimizing `|distance − query|`,
breaking ties by the first occurrence in trace order. -/
theorem c1_nearest_position (fig : Figure) (driver_data : List (String × List Sample))
    (d0 : String) (rest : List String) (series : List Sample) (dq : ℤ)
    (hlook : driver_data.lookup d0 = some series)
    (htr : firstLapTrace series ≠ [])
    (hfig : 1 < fig.data.length) :
    ∃ (i : ℕ) (s : Sample) (t1 : PlotTrace),
      (firstLapTrace series)[i]? = some s ∧ fig.data[1]? = some t1 ∧
      (∀ s2 ∈ firstLapTrace series, |s.distance - dq| ≤ |s2.distance - dq|) ∧
      (∀ j, j < i → ∀ s2 : Sample, (firstLapTrace series)[j]? = some s2 →
        |s.distance - dq| < |s2.distance - dq|) ∧
      update_track_marker fig driver_data (d0 :: rest) dq =
        ⟨fig.data.set 1
          { t1 with x := [s.x], y := [s.y], hoverDistance := s.distance }⟩ := by
  have hvals : (firstLapTrace series).map (fun s => |s.distance - dq|) ≠ [] := by
    simpa using htr
  obtain ⟨v, hv, hvmin, hvfirst⟩ :=
    idxmin_spec ((firstLapTrace series).map (fun s => |s.distance - dq|)) hvals
  rw [List.getElem?_map] at hv
  rcases hs : (firstLapTrace series)[idxmin
      ((firstLapTrace series).map (fun s => |s.distance - dq|))]? with _ | s
  · rw [hs] at hv; exact Option.noConfusion hv
  · rw [hs] at hv
    have hvs : |s.distance - dq| = v := by
      simpa using hv
    have ht1 : fig.data[1]? = some (fig.data.get ⟨1, hfig⟩) := List.getElem?_eq_getElem hfig
    refine ⟨_, s, fig.data.get ⟨1, hfig⟩, hs, ht1, ?_, ?_, ?_⟩
    · intro s2 hs2
      rw [hvs]
      exact hvmin _ (List.mem_map.2 ⟨s2, hs2, rfl⟩)
    · intro j hj s2 hjs2
      rw [hvs]
      refine hvfirst j hj _ ?_
      rw [List.getElem?_map, hjs2]
      rfl
    · rw [update_track_marker]
      rw [hlook]
      simp only
      rw [if_neg (by simpa [List.isEmpty_iff] using htr)]
      rw [hs, ht1]

/-- Concrete inputs for the C1 witness: the spec's scenario.  Driver "VER"
has two valid laps, each with recorded distances `[0, 50, 100]` and speeds
`[200, 250, 300]`; the reference (minimum-lap) trace is lap 1. -/
def dataC1 : List (String × List Sample) :=
  [("VER",
    [⟨0, 200, 0, 0, 0, 0, 0, 10, 11, 1, "VER", 80⟩,
     ⟨50, 250, 0, 0, 0, 0, 0, 20, 21, 1, "VER", 80⟩,
     ⟨100, 300, 0, 0, 0, 0, 0, 30, 31, 1, "VER", 80⟩,
     ⟨0, 200, 0, 0, 0, 0, 0, 12, 13, 2, "VER", 81⟩,
     ⟨50, 250, 0, 0, 0, 0, 0, 22, 23, 2, "VER", 81⟩,
     ⟨100, 300, 0, 0, 0, 0, 0, 32, 33, 2, "VER", 81⟩])]

/-- Concrete figure for the C1 witness: track outline plus marker trace. -/
def figC1 : Figure :=
  ⟨[⟨[10, 20, 30], [11, 21, 31], "lines", "#666666", 0⟩,
    ⟨[10], [11], "markers", "#FF6B35", 0⟩]⟩

/-- Witness for C1: querying distance 60 on the scenario trace moves the
marker to the sample at recorded distance 50 (position (20, 21)). -/
theorem c1_nearest_position_witness :
    (update_track_marker figC1 dataC1 ["VER"] 60 =
      ⟨[⟨[10, 20, 30], [11, 21, 31], "lines", "#666666", 0⟩,
        ⟨[20], [21], "markers", "#FF6B35", 50⟩]⟩) ∧
    (∃ (i : ℕ) (s : Sample) (t1 : PlotTrace),
      (firstLapTrace [⟨0, 200, 0, 0, 0, 0, 0, 10, 11, 1, "VER", 80⟩,
        ⟨50, 250, 0, 0, 0, 0, 0, 20, 21, 1, "VER", 80⟩,
        ⟨100, 300, 0, 0, 0, 0, 0, 30, 31, 1, "VER", 80⟩,
        ⟨0, 200, 0, 0, 0, 0, 0, 12, 13, 2, "VER", 81⟩,
        ⟨50, 250, 0, 0, 0, 0, 0, 22, 23, 2, "VER", 81⟩,
        ⟨100, 300, 0, 0, 0, 0, 0, 32, 33, 2, "VER", 81⟩])[i]? = some s ∧
      figC1.data[1]? = some t1 ∧
      (∀ s2 ∈ firstLapTrace [⟨0, 200, 0, 0, 0, 0, 0, 10, 11, 1, "VER", 80⟩,
        ⟨50, 250, 0, 0, 0, 0, 0, 20, 21, 1, "VER", 80⟩,
        ⟨100, 300, 0, 0, 0, 0, 0, 30, 31, 1, "VER", 80⟩,
        ⟨0, 200, 0, 0, 0, 0, 0, 12, 13, 2, "VER", 81⟩,
        ⟨50, 250, 0, 0, 0, 0, 0, 22, 23, 2, "VER", 81⟩,
        ⟨100, 300, 0, 0, 0, 0, 0, 32, 33, 2, "VER", 81⟩],
        |s.distance - 60| ≤ |s2.distance - 60|) ∧
      (∀ j, j < i → ∀ s2 : Sample,
        (firstLapTrace [⟨0, 200, 0, 0, 0, 0, 0, 10, 11, 1, "VER", 80⟩,
          ⟨50, 250, 0, 0, 0, 0, 0, 20, 21, 1, "VER", 80⟩,
          ⟨100, 300, 0, 0, 0, 0, 0, 30, 31, 1, "VER", 80⟩,
          ⟨0, 200, 0, 0, 0, 0, 0, 12, 13, 2, "VER", 81⟩,
          ⟨50, 250, 0, 0, 0, 0, 0, 22, 23, 2, "VER", 81⟩,
          ⟨100, 300, 0, 0, 0, 0, 0, 32, 33, 2, "VER", 81⟩])[j]? = some s2 →
        |s.distance - 60| < |s2.distance - 60|) ∧
      update_track_marker figC1 dataC1 ["VER"] 60 =
        ⟨figC1.data.set 1
          { t1 with x := [s.x], y := [s.y], hoverDistance := s.distance }⟩) :=
  ⟨by decide,
   c1_nearest_position figC1 dataC1 "VER" [] _ 60 (by rfl) (by decide) (by decide)⟩

/-- C9: every degenerate input — empty selected-driver list, first driver
absent from the mapping, or empty reference trace — leaves every field of
the figure exactly as it was. -/
theorem c9_no_update (fig : Figure) (driver_data : List (String × List Sample))
    (selected_drivers : List String) (dq : ℤ) :
    (selected_drivers = [] →
      update_track_marker fig driver_data selected_drivers dq = fig) ∧
    (∀ d0 rest, selected_drivers = d0 :: rest → driver_data.lookup d0 = none →
      update_track_marker fig driver_data selected_drivers dq = fig) ∧
    (∀ d0 rest series, selected_drivers = d0 :: rest →
      driver_data.lookup d0 = some series → firstLapTrace series = [] →
      update_track_marker fig driver_data selected_drivers dq = fig) := by
  refine ⟨?_, ?_, ?_⟩
  · rintro rfl
    rfl
  · rintro d0 rest rfl hnone
    rw [update_track_marker, hnone]
  · rintro d0 rest series rfl hsome hempty
    rw [update_track_marker, hsome]
    simp only
    rw [if_pos (by simp [hempty])]

/-- Witness for C9 at concrete degenerate inputs. -/
theorem c9_no_update_witness :
    (update_track_marker figC1 dataC1 [] 60 = figC1) ∧
    (update_track_marker figC1 dataC1 ["HAM"] 60 = figC1) ∧
    (update_track_marker figC1 [("XXX", [])] ["XXX"] 60 = figC1) :=
  ⟨(c9_no_update figC1 dataC1 [] 60).1 rfl,
   (c9_no_update figC1 dataC1 ["HAM"] 60).2.1 "HAM" [] rfl (by rfl),
   (c9_no_update figC1 [("XXX", [])] ["XXX"] 60).2.2 "XXX" [] [] rfl (by rfl) (by rfl)⟩

/-! ## Lap summary statistics (`get_lap_summary_stats`) -/

/-- The per-driver summary record built at lines 425–432. -/
structure LapStats where
  max_speed : ℤ
  avg_speed : ℚ
  max_rpm : ℤ
  avg_throttle : ℚ
  avg_brake : ℚ
  drs_usage : ℚ
deriving DecidableEq

/-- pandas `.max()` on a column (value on an empty column irrelevant: the
code only reaches it on non-empty lap data). -/
def listMax : List ℤ → ℤ
  | [] => 0
  | v :: vs => vs.foldl max v

/-- pandas `.mean()` on a column. -/
def listMean (l : List ℤ) : ℚ :=
  (l.sum : ℚ) / (l.length : ℚ)

/-- Lines 425–432: the six statistics of one lap's samples. -/
def lapStatsOf (lapData : List Sample) : LapStats :=
  { max_speed := listMax (lapData.map (·.speed)),
    avg_speed := listMean (lapData.map (·.speed)),
    max_rpm := listMax (lapData.map (·.rpm)),
    avg_throttle := listMean (lapData.map (·.throttle)),
    avg_brake := listMean (lapData.map (·.brake)),
    drs_usage := ((lapData.countP (fun s => decide (0 < s.drs)) : ℚ) /
      (lapData.length : ℚ)) * 100 }

/-- `get_lap_summary_stats`, lines 400–434: drivers absent from the
mapping or with no samples at the target lap are skipped, the rest are
mapped to their lap statistics. -/
def get_lap_summary_stats (driver_data : List (String × List Sample))
    (selected_drivers : List String) (selected_lap : ℕ) : List (String × LapStats) :=
  selected_drivers.filterMap (fun d =>
    match driver_data.lookup d with
    | none => none
    | some series =>
      let lapData := series.filter (fun s => s.lapNumber == selected_lap)
      if lapData.isEmpty then none else some (d, lapStatsOf lapData))

/-- C5: `get_lap_summary_stats` contains exactly the selected drivers that
are present in the mapping with at least one sample at the target lap,
each mapped to the statistics record (max/mean speed, max RPM, mean
throttle, mean brake, DRS-active percentage) of that lap's samples;
drivers absent from the mapping or without samples at the lap are
omitted, and the embedding is total, so no error is raised. -/
theorem c5_lap_summary (driver_data : List (String × List Sample))
    (selected_drivers : List String) (selected_lap : ℕ) (d : String) :
    (driver_data.lookup d = none →
      ∀ st, (d, st) ∉ get_lap_summary_stats driver_data selected_drivers selected_lap) ∧
    (∀ series, driver_data.lookup d = some series →
      series.filter (fun s => s.lapNumber == selected_lap) = [] →
      ∀ st, (d, st) ∉ get_lap_summary_stats driver_data selected_drivers selected_lap) ∧
    (∀ series, d ∈ selected_drivers → driver_data.lookup d = some series →
      series.filter (fun s => s.lapNumber == selected_lap) ≠ [] →
      (d, lapStatsOf (series.filter (fun s => s.lapNumber == selected_lap))) ∈
        get_lap_summary_stats driver_data selected_drivers selected_lap) ∧
    (∀ st, (d, st) ∈ get_lap_summary_stats driver_data selected_drivers selected_lap →
      d ∈ selected_drivers ∧ ∃ series, driver_data.lookup d = some series ∧
        series.filter (fun s => s.lapNumber == selected_lap) ≠ [] ∧
        st = lapStatsOf (series.filter (fun s => s.lapNumber == selected_lap))) := by
  refine ⟨?_, ?_, ?_, ?_⟩
  · intro hnone st hmem
    rw [get_lap_summary_stats, List.mem_filterMap] at hmem
    obtain ⟨d2, _, heq⟩ := hmem
    rcases hl : driver_data.lookup d2 with _ | series
    · rw [hl] at heq; exact Option.noConfusion heq
    · rw [hl] at heq
      simp only at heq
      by_cases he : (series.filter (fun s => s.lapNumber == selected_lap)).isEmpty
      · rw [if_pos he] at heq; exact Option.noConfusion heq
      · rw [if_neg he] at heq
        obtain ⟨rfl, -⟩ := Prod.mk.injEq .. ▸ Option.some.injEq _ _ ▸ heq
        rw [hl] at hnone
        exact Option.noConfusion hnone
  · intro series hsome hempty st hmem
    rw [get_lap_summary_stats, List.mem_filterMap] at hmem
    obtain ⟨d2, _, heq⟩ := hmem
    rcases hl : driver_data.lookup d2 with _ | series2
    · rw [hl] at heq; exact Option.noConfusion heq
    · rw [hl] at heq
      simp only at heq
      by_cases he : (series2.filter (fun s => s.lapNumber == selected_lap)).isEmpty
      · rw [if_pos he] at heq; exact Option.noConfusion heq
      · rw [if_neg he] at heq
        obtain ⟨rfl, -⟩ := Prod.mk.injEq .. ▸ Option.some.injEq _ _ ▸ heq
        rw [hl] at hsome
        obtain rfl : series2 = series := Option.some.injEq _ _ ▸ hsome
        rw [hempty] at he
        exact he rfl
  · intro series hd hsome hne
    rw [get_lap_summary_stats, List.mem_filterMap]
    refine ⟨d, hd, ?_⟩
    rw [hsome]
    simp only
    rw [if_neg (by simpa [List.isEmpty_iff] using hne)]
  · intro st hmem
    rw [get_lap_summary_stats, List.mem_filterMap] at hmem
    obtain ⟨d2, hd2, heq⟩ := hmem
    rcases hl : driver_data.lookup d2 with _ | series
    · rw [hl] at heq; exact Option.noConfusion heq
    · rw [hl] at heq
      simp only at heq
      by_cases he : (series.filter (fun s => s.lapNumber == selected_lap)).isEmpty
      · rw [if_pos he] at heq; exact Option.noConfusion heq
      · rw [if_neg he] at heq
        obtain ⟨rfl, rfl⟩ := Prod.mk.injEq .. ▸ Option.some.injEq _ _ ▸ heq
        exact ⟨hd2, series, hl, by simpa [List.isEmpty_iff] using he, rfl⟩

/-- Concrete mapping for the C5 witness: "VER" has one sample at lap 5,
"HAM" is absent from the mapping. -/
def dataC5 : List (String × List Sample) :=
  [("VER", [⟨0, 250, 9000, 100, 0, 8, 7, 0, 0, 5, "VER", 80⟩])]

/-- Witness for C5: "VER" is reported with its lap-5 statistics, "HAM" is
omitted without an error. -/
theorem c5_lap_summary_witness :
    ("VER", lapStatsOf ([(⟨0, 250, 9000, 100, 0, 8, 7, 0, 0, 5, "VER", 80⟩ : Sample)].filter
        (fun s => s.lapNumber == 5))) ∈
      get_lap_summary_stats dataC5 ["VER", "HAM"] 5 ∧
    ("HAM", lapStatsOf []) ∉ get_lap_summary_stats dataC5 ["VER", "HAM"] 5 :=
  ⟨(c5_lap_summary dataC5 ["VER", "HAM"] 5 "VER").2.2.1
      [⟨0, 250, 9000, 100, 0, 8, 7, 0, 0, 5, "VER", 80⟩] (by simp) (by rfl) (by decide),
   (c5_lap_summary dataC5 ["VER", "HAM"] 5 "HAM").1 (by rfl) (lapStatsOf [])⟩

/-! ## Event list (`get_available_events`) -/

/-- One row of the FastF1 event schedule, restricted to what the code
reads: `EventName` and `EventDate` (dates modelled as integers, compared
with the current date). -/
structure Event where
  name : String
  date : ℤ
deriving DecidableEq

/-- The hard-coded fallback list of lines 69–77, returned when the
schedule fetch raises. -/
def fallbackEvents : List String :=
  ["Bahrain Grand Prix", "Saudi Arabian Grand Prix", "Australian Grand Prix",
   "Japanese Grand Prix", "Chinese Grand Prix", "Miami Grand Prix",
   "Emilia Romagna Grand Prix", "Monaco Grand Prix", "Canadian Grand Prix",
   "Spanish Grand Prix", "Austrian Grand Prix", "British Grand Prix",
   "Hungarian Grand Prix", "Belgian Grand Prix", "Dutch Grand Prix",
   "Italian Grand Prix", "Azerbaijan Grand Prix", "Singapore Grand Prix",
   "United States Grand Prix", "Mexico City Grand Prix", "SÃ£o Paulo Grand Prix"]

/-- `get_available_events`, lines 44–77: keep the names of the events
dated on or before today; if none qualify, return the first ten names of
the unfiltered schedule (`[:10]`); if the fetch raises, return the fixed
fallback list. -/
def get_available_events (fetch : Except String (List Event)) (today : ℤ) : List String :=
  match fetch with
  | .error _ => fallbackEvents
  | .ok schedule =>
    let events := (schedule.filter (fun e => decide (e.date ≤ today))).map (·.name)
    if events.isEmpty then (schedule.map (·.name)).take 10 else events

/-- Schedule for the C6 counterexample: eleven events, all dated strictly
after "today" (day 0). -/
def scheduleC6 : List Event :=
  [⟨"E01", 1⟩, ⟨"E02", 1⟩, ⟨"E03", 1⟩, ⟨"E04", 1⟩, ⟨"E05", 1⟩, ⟨"E06", 1⟩,
   ⟨"E07", 1⟩, ⟨"E08", 1⟩, ⟨"E09", 1⟩, ⟨"E10", 1⟩, ⟨"E11", 1⟩]

/-- Counterexample to C6: on an eleven-event schedule with no event on or
before today, the function returns neither the full unfiltered schedule
nor the fixed fallback list (it truncates to ten entries); and on an empty
schedule that fetches without error, it returns the empty list. -/
theorem c6_counterexample :
    (∀ e ∈ scheduleC6, ¬(e.date ≤ (0 : ℤ))) ∧
    get_available_events (.ok scheduleC6) 0 ≠ scheduleC6.map (·.name) ∧
    get_available_events (.ok scheduleC6) 0 ≠ fallbackEvents ∧
    get_available_events (.ok ([] : List Event)) 0 = [] := by
  decide

/-- C6 (amended): for a schedule with no event dated on or before today,
`get_available_events` returns the first ten names of the unfiltered
schedule — non-empty whenever the schedule is non-empty — and on a fetch
error it returns the fixed non-empty fallback list; with a successfully
fetched empty schedule the result is empty. -/
theorem c6_amended (schedule : List Event) (today : ℤ) (msg : String)
    (h : ∀ e ∈ schedule, ¬(e.date ≤ today)) :
    get_available_events (.ok schedule) today = (schedule.map (·.name)).take 10 ∧
    (schedule ≠ [] → get_available_events (.ok schedule) today ≠ []) ∧
    get_available_events (.error msg) today = fallbackEvents ∧
    fallbackEvents ≠ [] := by
  have hfilter : schedule.filter (fun e => decide (e.date ≤ today)) = [] := by
    rw [List.filter_eq_nil_iff]
    intro e he
    simpa using h e he
  have hmain : get_available_events (.ok schedule) today =
      (schedule.map (·.name)).take 10 := by
    rw [get_available_events]
    simp only [hfilter, List.map_nil, List.isEmpty_nil, if_pos]
  refine ⟨hmain, ?_, rfl, by decide⟩
  intro hne hcontra
  rw [hmain] at hcontra
  rcases List.take_eq_nil_iff.1 hcontra with h10 | hmapnil
  · exact absurd h10 (by decide)
  · exact hne (List.map_eq_nil_iff.1 hmapnil)

/-- Witness for C6 (amended) at a concrete one-event future schedule. -/
theorem c6_amended_witness :
    get_available_events (.ok [⟨"X Grand Prix", 5⟩]) 0 =
      (([⟨"X Grand Prix", 5⟩] : List Event).map (·.name)).take 10 ∧
    (([⟨"X Grand Prix", 5⟩] : List Event) ≠ [] →
      get_available_events (.ok [⟨"X Grand Prix", 5⟩]) 0 ≠ []) ∧
    get_available_events (.error "connection error") 0 = fallbackEvents ∧
    fallbackEvents ≠ [] :=
  c6_amended [⟨"X Grand Prix", 5⟩] 0 "connection error" (by decide)

/-! ## LaTeX compilation (`compile_latex_resume`, `pdf_utils.py`) -/

/-- The environment `compile_latex_resume` runs in: whether the template
file exists, the outcome of the two `subprocess.run` invocations of
`pdflatex` (`Except.error` models a raised exception such as a missing
binary, `Except.ok rc` the completed process's return code — `subprocess.run`
without `check=True` does not raise on a nonzero code), whether a
`resume.pdf` was produced in the LaTeX directory, and its contents. -/
structure CompileEnv where
  templateExists : Bool
  run1 : Except String ℤ
  run2 : Except String ℤ
  pdfProduced : Bool
  pdfBytes : String

/-- `compile_latex_resume`, `pdf_utils.py` lines 16–80, as a function of
its environment and of the prior contents of the output artifact
`assets/resume.pdf`; it returns the boolean result together with the new
contents of `assets/resume.pdf`.  Missing template → `False`; first run
raising or exiting nonzero → `False`; second run raising → caught by the
`except` handler → `False`; otherwise the produced PDF (if any) is copied
and `True` is returned — the second run's exit code is never examined. -/
def compile_latex_resume (env : CompileEnv) (priorPdf : Option String) :
    Bool × Option String :=
  if env.templateExists = false then (false, priorPdf)
  else
    match env.run1 with
    | .error _ => (false, priorPdf)
    | .ok rc1 =>
      if rc1 ≠ 0 then (false, priorPdf)
      else
        match env.run2 with
        | .error _ => (false, priorPdf)
        | .ok _ => if env.pdfProduced then (true, some env.pdfBytes) else (true, priorPdf)

/-- Counterexample to C7: when the first `pdflatex` run exits 0 and the
second exits 1 — a compiler failure — the function still returns `True`
and overwrites `assets/resume.pdf`, contradicting "on every compiler or
subprocess failure it returns False and the prior contents … are left
untouched". -/
theorem c7_counterexample :
    (⟨true, .ok 0, .ok 1, true, "newpdf"⟩ : CompileEnv).run2 = .ok 1 ∧ (1 : ℤ) ≠ 0 ∧
    compile_latex_resume ⟨true, .ok 0, .ok 1, true, "newpdf"⟩ (some "oldpdf") =
      (true, some "newpdf") := by
  refine ⟨rfl, by decide, rfl⟩

/-- C7 (amended): `compile_latex_resume` returns `True` iff the template
exists, the first compiler run exits 0 and the second run raises no
exception — the second run's exit code is not checked; when it returns
`True` the produced PDF (if one exists) is copied to `assets/resume.pdf`,
otherwise the output artifact keeps its prior contents; on every `False`
return the prior artifact is untouched. -/
theorem c7_amended (env : CompileEnv) (priorPdf : Option String) :
    ((compile_latex_resume env priorPdf).1 = true ↔
      (env.templateExists = true ∧ env.run1 = .ok 0 ∧ ∃ rc : ℤ, env.run2 = .ok rc)) ∧
    ((compile_latex_resume env priorPdf).1 = false →
      (compile_latex_resume env priorPdf).2 = priorPdf) ∧
    ((compile_latex_resume env priorPdf).1 = true → env.pdfProduced = true →
      (compile_latex_resume env priorPdf).2 = some env.pdfBytes) ∧
    ((compile_latex_resume env priorPdf).1 = true → env.pdfProduced = false →
      (compile_latex_resume env priorPdf).2 = priorPdf) := by
  obtain ⟨tmpl, r1, r2, prod, bytes⟩ := env
  cases tmpl
  · simp [compile_latex_resume]
  · rcases r1 with e1 | rc1
    · simp [compile_latex_resume]
    · by_cases h1 : rc1 = (0 : ℤ)
      · subst h1
        rcases r2 with e2 | rc2
        · simp [compile_latex_resume]
        · cases prod
          · simp [compile_latex_resume]
          · simp [compile_latex_resume]
      · simp [compile_latex_resume, h1]

/-- Witness for C7 (amended): a successful compilation with a produced
PDF copies it to the output artifact. -/
theorem c7_amended_witness :
    ((compile_latex_resume ⟨true, .ok 0, .ok 0, true, "pdf"⟩ (some "old")).1 = true ↔
      ((⟨true, .ok 0, .ok 0, true, "pdf"⟩ : CompileEnv).templateExists = true ∧
        (⟨true, .ok 0, .ok 0, true, "pdf"⟩ : CompileEnv).run1 = .ok 0 ∧
        ∃ rc : ℤ, (⟨true, .ok 0, .ok 0, true, "pdf"⟩ : CompileEnv).run2 = .ok rc)) ∧
    ((compile_latex_resume ⟨true, .ok 0, .ok 0, true, "pdf"⟩ (some "old")).1 = false →
      (compile_latex_resume ⟨true, .ok 0, .ok 0, true, "pdf"⟩ (some "old")).2 = some "old") ∧
    ((compile_latex_resume ⟨true, .ok 0, .ok 0, true, "pdf"⟩ (some "old")).1 = true →
      (⟨true, .ok 0, .ok 0, true, "pdf"⟩ : CompileEnv).pdfProduced = true →
      (compile_latex_resume ⟨true, .ok 0, .ok 0, true, "pdf"⟩ (some "old")).2 = some "pdf") ∧
    ((compile_latex_resume ⟨true, .ok 0, .ok 0, true, "pdf"⟩ (some "old")).1 = true →
      (⟨true, .ok 0, .ok 0, true, "pdf"⟩ : CompileEnv).pdfProduced = false →
      (compile_latex_resume ⟨true, .ok 0, .ok 0, true, "pdf"⟩ (some "old")).2 = some "old") :=
  c7_amended ⟨true, .ok 0, .ok 0, true, "pdf"⟩ (some "old")

/-! ## LaTeX template round-trip (`save_latex_template` and the
`Resume.py` reload) -/

/-- The template file path written by `save_latex_template` and read back
by `Resume.py`. -/
def resumeTexPath : String := "assets/resume_latex/resume.tex"

/-- Python universal-newlines read translation (`open(..., 'r')` with
`newline=None`): `"\r\n"` and `"\r"` become `"\n"`. -/
def univNewlines : List Char → List Char
  | [] => []
  | '\r' :: '\n' :: rest => '\n' :: univNewlines rest
  | '\r' :: rest => '\n' :: univNewlines rest
  | c :: rest => c :: univNewlines rest

/-- `save_latex_template`, `pdf_utils.py` lines 283–308: write `content`
to `assets/resume_latex/resume.tex`.  Text-mode writing with
`newline=None` translates `'\n'` to `os.linesep`, which is `'\n'` on the
Linux deployment target, so the written bytes are the content unchanged.
The file system is an association list path ↦ contents. -/
def save_latex_template (fs : List (String × List Char)) (content : List Char) :
    List (String × List Char) :=
  (resumeTexPath, content) :: fs

/-- The reload in `Resume.py` lines 393–395: `open(latex_path, 'r',
encoding='utf-8').read()`, a text-mode read with universal newlines. -/
def readResumeTex (fs : List (String × List Char)) : Option (List Char) :=
  (fs.lookup resumeTexPath).map univNewlines

/-- Counterexample to C8: content containing a bare carriage return is
not read back byte-identically — the text-mode reload normalizes it to a
line feed. -/
theorem c8_counterexample :
    readResumeTex (save_latex_template [] ['a', '\r', 'b']) = some ['a', '\n', 'b'] ∧
    (['a', '\n', 'b'] ≠ ['a', '\r', 'b']) := by
  decide

theorem univNewlines_of_no_cr (content : List Char) (h : '\r' ∉ content) :
    univNewlines content = content := by
  induction content using univNewlines.induct with
  | case1 => rfl
  | case2 rest ih =>
    exact absurd (List.mem_cons_self _ _) h
  | case3 rest hne ih =>
    exact absurd (List.mem_cons_self _ _) h
  | case4 c rest hne1 hne2 ih =>
    rw [univNewlines, ih (fun hr => h (List.mem_cons_of_mem _ hr))]
    · exact hne1
    · exact hne2

/-- C8 (amended): saving the document source and reloading it yields the
content with CR and CRLF line endings normalized to LF by the text-mode
read; in particular the round-trip is byte-identical for every content
without a carriage return. -/
theorem c8_roundtrip (fs : List (String × List Char)) (content : List Char)
    (h : '\r' ∉ content) :
    readResumeTex (save_latex_template fs content) = some content := by
  rw [readResumeTex, save_latex_template]
  simp [List.lookup, univNewlines_of_no_cr content h]

/-- Witness for C8 (amended) on concrete CR-free content. -/
theorem c8_roundtrip_witness :
    readResumeTex (save_latex_template [] ['h', 'i', '\n']) = some ['h', 'i', '\n'] :=
  c8_roundtrip [] ['h', 'i', '\n'] (by decide)

/-! ## Telemetry comparison plots (`create_telemetry_plots`) -/

/-- The six plotted metrics of line 256 with their subplot titles. -/
def telemetryMetrics : List (String × (Sample → ℤ)) :=
  [("Speed (km/h)", (·.speed)), ("RPM", (·.rpm)), ("Throttle (%)", (·.throttle)),
   ("Brake", (·.brake)), ("DRS", (·.drs)), ("Gear", (·.nGear))]

/-- The `driver_colors` dict of lines 270–273 read through `.get(driver,
'white')`; a duplicate key (`d0 = d1`) keeps the later value, as in a
Python dict literal. -/
def driverColor (selected_drivers : List String) (d0 d1 d : String) : String :=
  if d = d1 then (if selected_drivers.length > 1 then "#FF6B35" else "#F7931E")
  else if d = d0 then "#00D4FF" else "white"

/-- The per-driver loop body of lines 275–308: skip drivers absent from
the mapping or with an empty series or no samples at the selected lap;
otherwise sort the lap's samples by distance (stable `sort_values`) and
emit one line trace per metric. -/
def driverLapTraces (driver_data : List (String × List Sample))
    (selected_drivers : List String) (d0 d1 : String) (selected_lap : ℕ)
    (d : String) : List PlotTrace :=
  match driver_data.lookup d with
  | none => []
  | some series =>
    if series.isEmpty then []
    else
      let lapTel := (series.filter (fun s => s.lapNumber == selected_lap)).mergeSort
        (fun a b => decide (a.distance ≤ b.distance))
      if lapTel.isEmpty then []
      else
        telemetryMetrics.map (fun m =>
          { x := lapTel.map (·.distance), y := lapTel.map m.2, mode := "lines",
            color := driverColor selected_drivers d0 d1 d, hoverDistance := 0 })

/-- `create_telemetry_plots`, lines 243–364.  The `driver_colors` dict
literal evaluates `selected_drivers[0]` and `selected_drivers[1]`
unconditionally (only the second *value* is guarded by the length
conditional), so a selection with fewer than two drivers raises
`IndexError: list index out of range`; with two or more drivers the
figure is built from the per-driver lap traces. -/
def create_telemetry_plots (driver_data : List (String × List Sample))
    (selected_drivers : List String) (selected_lap : ℕ) (selected_distance : ℤ) :
    Except String Figure :=
  match selected_drivers with
  | [] => .error "list index out of range"
  | [_] => .error "list index out of range"
  | d0 :: d1 :: rest =>
      .ok ⟨(d0 :: d1 :: rest).flatMap
        (driverLapTraces driver_data (d0 :: d1 :: rest) d0 d1 selected_lap)⟩

/-- C10: `create_telemetry_plots` fails with an out-of-bounds index
access for every selected-driver list with fewer than two entries, and
produces a figure exactly when at least two drivers are selected. -/
theorem c10_unconditional_index (driver_data : List (String × List Sample))
    (selected_drivers : List String) (selected_lap : ℕ) (selected_distance : ℤ) :
    (selected_drivers.length < 2 →
      create_telemetry_plots driver_data selected_drivers selected_lap
        selected_distance = .error "list index out of range") ∧
    (2 ≤ selected_drivers.length →
      ∃ f : Figure, create_telemetry_plots driver_data selected_drivers selected_lap
        selected_distance = .ok f) := by
  constructor
  · intro hlen
    match selected_drivers, hlen with
    | [], _ => rfl
    | [d0], _ => rfl
  · intro hlen
    match selected_drivers, hlen with
    | d0 :: d1 :: rest, _ =>
      exact ⟨⟨(d0 :: d1 :: rest).flatMap
        (driverLapTraces driver_data (d0 :: d1 :: rest) d0 d1 selected_lap)⟩, rfl⟩

/-- Witness for C10: one driver selected → index error; two drivers
selected → a figure is produced. -/
theorem c10_unconditional_index_witness :
    create_telemetry_plots [] ["VER"] 1 60 = .error "list index out of range" ∧
    ∃ f : Figure, create_telemetry_plots [] ["VER", "HAM"] 1 60 = .ok f :=
  ⟨(c10_unconditional_index [] ["VER"] 1 60).1 (by decide),
   (c10_unconditional_index [] ["VER", "HAM"] 1 60).2 (by decide)⟩

end Portfolio
